import Mathlib

/-!
# Verification of the TabRouter navigation-state reducer

A shallow embedding of `src/routers/TabRouter.js`: the hierarchical
navigation-state reducer (`getStateForAction`) together with the path codec
(`getPathAndParamsForState`, `getActionForPathAndParams`).

JS object identity is modelled explicitly: every `Route` carries a `rid`, every
`NavigationState` carries a `sid` (the state object) and an `aid` (the `routes`
array object).  Every site in the source that constructs a new object draws a
fresh identifier from a counter threaded through the reducer; two objects are
the same JS object exactly when their identifiers coincide.  The single
in-place mutation of the source (`state.routes = ...` in the Init branch) is
reflected by returning, besides the result, the value of the caller-supplied
input state after the call (`inputAfter`).

Nested child routers are opaque to this router (the source only calls their
methods and compares returned references), so they are modelled as abstract
functions whose reduction result is reported through `ChildRes`: `nul` for a
JS `null` return, `same` for returning the input object itself (reference
equality), and `new r` for returning a different object with value `r`.

The only statement the source can fail on is the dereference of a `null`
child router in the Pass branch; this is modelled by the `RRes.crash` result.
-/

/-- A JS params object, as an association list from keys to values
(insertion-ordered, as in JS). -/
abbrev ParamMap := List (String × Int)

/-- The override step of a JS spread-merge: an entry keeps its key and takes
`b`'s value when `b` has the key. -/
def overrideBy (b : ParamMap) (p : String × Int) : String × Int :=
  match b.lookup p.1 with
  | some v => (p.1, v)
  | none => p

/-- JS spread-merge of two objects, `\x7b...a, ...b\x7d`: every key of `a`
keeps its position but takes `b`'s value when `b` also has it; keys only in
`b` are appended in order. -/
def objAssign (a b : ParamMap) : ParamMap :=
  a.map (overrideBy b) ++ b.filter (fun p => (a.lookup p.1).isNone)

/-- A route object at this router's level.  `rid` is the JS object identity.
A route owning a nested router is simultaneously the child router's state;
the content the child cares about beyond `key`/`routeName` is carried in
`params` (the child routers are abstract, see `ChildRouter`). -/
structure Route where
  rid : Nat
  key : String
  routeName : String
  params : Option ParamMap
  deriving DecidableEq, Repr

def dummyRoute : Route := ⟨0, "", "", none⟩

/-- A navigation state: active `index` plus ordered `routes`.  `sid` is the
identity of the state object, `aid` the identity of its `routes` array. -/
structure NavState where
  sid : Nat
  aid : Nat
  index : Nat
  routes : List Route
  deriving DecidableEq, Repr

/-- The identity-free value of a route (what JS deep equality sees). -/
structure RouteVal where
  key : String
  routeName : String
  params : Option ParamMap
  deriving DecidableEq, Repr

def Route.val (r : Route) : RouteVal := ⟨r.key, r.routeName, r.params⟩

/-- The identity-free value of a navigation state. -/
structure StateVal where
  index : Nat
  routes : List RouteVal
  deriving DecidableEq, Repr

def NavState.val (s : NavState) : StateVal := ⟨s.index, s.routes.map Route.val⟩

/-- Navigation actions, modelled as the JS action objects: a `type` tag plus
the optional fields the reducer reads (`routeName`, `key`, `params`,
`action`).  The `nest` constructor is the case where the embedded
`action.action` is present. -/
inductive NavAction where
  | mk (type : String) (routeName : Option String) (key : Option String)
      (params : Option ParamMap) : NavAction
  | nest (type : String) (routeName : Option String) (key : Option String)
      (params : Option ParamMap) (inner : NavAction) : NavAction
  deriving DecidableEq, Repr

def NavAction.type : NavAction → String
  | .mk t _ _ _ => t
  | .nest t _ _ _ _ => t

def NavAction.routeName : NavAction → Option String
  | .mk _ rn _ _ => rn
  | .nest _ rn _ _ _ => rn

def NavAction.key : NavAction → Option String
  | .mk _ _ k _ => k
  | .nest _ _ k _ _ => k

def NavAction.params : NavAction → Option ParamMap
  | .mk _ _ _ p => p
  | .nest _ _ _ p _ => p

/-- `action.action`, the embedded action when present. -/
def NavAction.nested : NavAction → Option NavAction
  | .mk _ _ _ _ => none
  | .nest _ _ _ _ i => some i

namespace NavigationActions

/-! Modelled from the spec: the `NavigationActions` module (action type tags
and creators) is not under `src/`; the tags below stand for its canonical
action-type constants, and `NavigationActions.init` / `navigate` build the
corresponding canonical action objects.  `mapDeprecatedActionAndWarn` (the
ActionNormalizer) maps deprecated action shapes to canonical ones and leaves
canonical actions unchanged; only canonical actions are modelled, so it is the
identity here. -/

def INIT : String := "Navigation/INIT"
def NAVIGATE : String := "Navigation/NAVIGATE"
def BACK : String := "Navigation/BACK"
def SET_PARAMS : String := "Navigation/SET_PARAMS"
def PASS : String := "Navigation/PASS"

/-- `NavigationActions.init(\x7b...(params ? \x7bparams\x7d : \x7b\x7d)\x7d)`. -/
def init (p : Option ParamMap) : NavAction := NavAction.mk INIT none none p

/-- `NavigationActions.navigate(\x7brouteName\x7d)`. -/
def navigate (routeName : String) : NavAction := NavAction.mk NAVIGATE (some routeName) none none

/-- The ActionNormalizer: identity on canonical actions. -/
def mapDeprecatedActionAndWarn (a : NavAction) : NavAction := a

end NavigationActions

/-- The result of a child router's `getStateForAction` call, as observed by
the parent through JS reference comparison: `nul` = returned `null`,
`same` = returned the very input object, `new r` = returned a different
object whose value is `r`. -/
inductive ChildRes where
  | nul : ChildRes
  | same : ChildRes
  | new (r : Route) : ChildRes
  deriving DecidableEq, Repr

/-- An opaque nested router: the operations of a route's `screen.router` that
`TabRouter` invokes.  `run` is its `getStateForAction`; `gafpap` is its
optional `getActionForPathAndParams` (the source tests for the method's
presence). -/
structure ChildRouter where
  run : NavAction → Option Route → ChildRes
  getPathAndParamsForState : Route → String × Option ParamMap
  gafpap : Option (String → Option ParamMap → Option NavAction)

/-- The static configuration of one `TabRouter` after construction
(`order`, `initialRouteName`, `backBehavior`, and the per-route config:
declared `path` and optional nested router `screen.router`). -/
structure TabConfig where
  order : List String
  initialRouteName : String
  backBehavior : String
  pathOf : String → Option String
  routerOf : String → Option ChildRouter

/-- `paths[routeName]` after the constructor loop: the declared path string
when the route config has one, else the route name itself. -/
def pathsOf (cfg : TabConfig) (name : String) : String :=
  (cfg.pathOf name).getD name

/-- `initialRouteIndex = order.indexOf(initialRouteName)`. -/
def initialRouteIndex (cfg : TabConfig) : Nat :=
  cfg.order.findIdx (· == cfg.initialRouteName)

/-- `backBehavior === 'initialRoute'`. -/
def shouldBackNavigateToInitialRoute (cfg : TabConfig) : Bool :=
  cfg.backBehavior == "initialRoute"

/-- `tabRouters[name]`: `none` = JS `undefined` (name not in `order`),
`some none` = JS `null` (declared route without a nested router),
`some (some cr)` = the nested router. -/
def tabRouterOf (cfg : TabConfig) (name : String) : Option (Option ChildRouter) :=
  if name ∈ cfg.order then some (cfg.routerOf name) else none

/-- `tabRouters[order[state.index]]`, the active route's router (skipped when
the index is outside `order`, as the JS lookup yields `undefined`). -/
def activeRouterOf (cfg : TabConfig) (st : NavState) : Option ChildRouter :=
  match cfg.order[st.index]? with
  | some name => cfg.routerOf name
  | none => none

namespace StateUtils

/-- Modelled from the spec: `StateUtils.indexOf(state, key)` (not under
`src/`) locates the route with the given `key` in `state.routes`, yielding
its index (`none` models the JS `-1`). -/
def indexOfKey (s : NavState) (k : String) : Option Nat :=
  s.routes.findIdx? (·.key == k)

/-- Modelled from the spec: `StateUtils.indexOfByName(state, routeName)`
locates the route with the given `routeName` in `state.routes`. -/
def indexOfByName (s : NavState) (rn : String) : Option Nat :=
  s.routes.findIdx? (·.routeName == rn)

end StateUtils

/-- Outcome of the Pass branch: an early `return` of a state, the JS
TypeError of the null-child-router dereference, or fall-through. -/
inductive PassOut where
  | ret (s : NavState) (n : Nat) : PassOut
  | crash : PassOut
  | fall : PassOut
  deriving DecidableEq, Repr

/-- Outcome of the active-branch delegation: an early `return` of a state,
an early `return null`, or fall-through. -/
inductive ActOut where
  | ret (s : NavState) (n : Nat) : ActOut
  | retNull : ActOut
  | fall : ActOut
  deriving DecidableEq, Repr

/-- Outcome of the Navigate body and of the SetParams branch: an early
`return` of a state or fall-through. -/
inductive NavOut where
  | ret (s : NavState) (n : Nat) : NavOut
  | fall : NavOut
  deriving DecidableEq, Repr

/-- Lines 66-86 of the source: synthesis of the default routes when no input
state is supplied — a route owning a nested router is seeded by reducing a
fresh Init action (carrying along the external action's `params`) against an
absent child state, other routes become bare leaves.  Each synthesized route
object takes a fresh identity. -/
def defaultRoutes (cfg : TabConfig) (a : NavAction) :
    List String → Nat → List Route × Nat
  | [], n => ([], n)
  | name :: rest, n =>
    let r : Route :=
      match cfg.routerOf name with
      | some cr =>
        match cr.run (NavigationActions.init a.params) none with
        | ChildRes.new rb => { rid := n, key := name, routeName := name, params := rb.params }
        | _ => { rid := n, key := name, routeName := name, params := none }
      | none => { rid := n, key := name, routeName := name, params := none }
    let tail := defaultRoutes cfg a rest (n + 1)
    (r :: tail.1, tail.2)

/-- Lines 87-90: the default state — synthesized routes, `index` at the
position of `initialRouteName`. -/
def defaultTabState (cfg : TabConfig) (a : NavAction) (n : Nat) : NavState × Nat :=
  let rs := defaultRoutes cfg a cfg.order n
  ({ sid := rs.2 + 1, aid := rs.2, index := initialRouteIndex cfg, routes := rs.1 }, rs.2 + 2)

/-- Lines 98-107: `state.routes.map(route => (\x7b...route, params:
\x7b...route.params, ...params\x7d\x7d))` — every route is rebuilt as a fresh
object with the action's params merged over its own. -/
def initMergeRoutes (p : ParamMap) : List Route → Nat → List Route × Nat
  | [], n => ([], n)
  | r :: rest, n =>
    let tail := initMergeRoutes p rest (n + 1)
    ({ rid := n, key := r.key, routeName := r.routeName,
       params := some (objAssign (r.params.getD []) p) } :: tail.1, tail.2)

/-- Lines 63-109: establish the working state (synthesizing a default when
the input is absent, lines 64-92) and apply the Init branch (lines 94-109),
which reassigns `state.routes` in place when the action is an Init carrying
params: the state object keeps its identity (`sid`), its routes array is
replaced by a fresh one. -/
def initStage (cfg : TabConfig) (a : NavAction) (input : Option NavState) (n : Nat) :
    NavState × Nat :=
  let st0n : NavState × Nat :=
    match input with
    | some s => (s, n)
    | none => defaultTabState cfg a n
  if a.type = NavigationActions.INIT then
    match a.params with
    | some p =>
      let rs := initMergeRoutes p st0n.1.routes st0n.2
      ({ st0n.1 with aid := rs.2, routes := rs.1 }, rs.2 + 1)
    | none => st0n
  else st0n

/-- Lines 111-138, the Pass branch.  The source guards with
`childRouter !== undefined`, so a declared route WITHOUT a nested router
(`tabRouters[name] === null`) passes the guard and
`childRouter.getStateForAction` dereferences `null`: `Step.crash`.
On a non-null child result the slot is replaced and a new root returned with
the current index kept. -/
def passStep (cfg : TabConfig) (a : NavAction) (st : NavState) (n : Nat) : PassOut :=
  if a.type = NavigationActions.PASS then
    match a.nested with
    | none => PassOut.fall
    | some inner =>
      match a.routeName with
      | none => PassOut.fall
      | some rn =>
        match tabRouterOf cfg rn with
        | none => PassOut.fall
        | some croptn =>
          match (match a.key with
                 | some k => StateUtils.indexOfKey st k
                 | none => StateUtils.indexOfByName st rn) with
          | none => PassOut.fall
          | some ci =>
            match st.routes[ci]? with
            | none => PassOut.fall
            | some childRoute =>
              match croptn with
              | none => PassOut.crash
              | some cr =>
                match cr.run inner (some childRoute) with
                | ChildRes.nul => PassOut.fall
                | ChildRes.same =>
                  PassOut.ret
                    { sid := n + 1, aid := n, index := st.index,
                      routes := st.routes.set ci childRoute } (n + 2)
                | ChildRes.new r =>
                  PassOut.ret
                    { sid := n + 1, aid := n, index := st.index,
                      routes := st.routes.set ci r } (n + 2)
  else PassOut.fall

/-- Lines 140-159: active-branch-first delegation — forward `action.action`
(if present) or the action itself to the active route's router; a `null`
child result with a supplied input state returns `null`; a changed child
state replaces the active slot (index unchanged). -/
def activeStep (cfg : TabConfig) (a : NavAction) (input : Option NavState)
    (st : NavState) (n : Nat) : ActOut :=
  match activeRouterOf cfg st with
  | none => ActOut.fall
  | some cr =>
    match cr.run (a.nested.getD a) (st.routes[st.index]?) with
    | ChildRes.nul => if input.isSome then ActOut.retNull else ActOut.fall
    | ChildRes.same =>
      match st.routes[st.index]? with
      | some _ => ActOut.fall
      | none => if input.isSome then ActOut.retNull else ActOut.fall
    | ChildRes.new r =>
      ActOut.ret
        { sid := n + 1, aid := n, index := st.index,
          routes := st.routes.set st.index r } (n + 2)

/-- Lines 163-172: the tentative target index after the Back-eligibility
check (assumes, as the source does on well-formed states, that
`state.routes[state.index]` exists when `action.key` is compared). -/
def backTargetIndex (cfg : TabConfig) (a : NavAction) (st : NavState) : Nat :=
  let isBackEligible : Bool :=
    match a.key with
    | none => true
    | some k => ((st.routes[st.index]?).map Route.key) == some k
  if a.type = NavigationActions.BACK ∧ isBackEligible = true ∧
      shouldBackNavigateToInitialRoute cfg = true then
    initialRouteIndex cfg
  else st.index

/-- Lines 174-182: `didNavigate` and the navigate target — the first index of
`action.routeName` in `order`, when the action is a Navigate. -/
def navTargetIndex (cfg : TabConfig) (a : NavAction) : Option Nat :=
  if a.type = NavigationActions.NAVIGATE then
    match a.routeName with
    | some rn => cfg.order.findIdx? (· == rn)
    | none => none
  else none

/-- Lines 183-212: the body of the Navigate branch once the target tab is
found at `ci`: delegate the embedded action to the target's router when
present, else merge params directly into a router-less target leaf; on a
child state differing (by reference) from the target's current one, replace
the slot and move the index to the target. -/
def navStep (cfg : TabConfig) (a : NavAction) (st : NavState) (ci : Nat) (n : Nat) : NavOut :=
  let childState := st.routes[ci]?
  let tabRouter : Option ChildRouter :=
    match a.routeName with
    | some rn => cfg.routerOf rn
    | none => none
  let newChild : ChildRes × Nat :=
    match a.nested with
    | some inner =>
      match tabRouter with
      | some cr => (cr.run inner childState, n)
      | none => (ChildRes.nul, n)
    | none =>
      match tabRouter, a.params with
      | none, some p =>
        let c := childState.getD dummyRoute
        (ChildRes.new { rid := n, key := c.key, routeName := c.routeName,
                        params := some (objAssign (c.params.getD []) p) }, n + 1)
      | _, _ => (ChildRes.nul, n)
  match newChild.1 with
  | ChildRes.new r =>
    NavOut.ret
      { sid := newChild.2 + 1, aid := newChild.2, index := ci,
        routes := st.routes.set ci r } (newChild.2 + 2)
  | _ => NavOut.fall

/-- Lines 214-234: the SetParams branch — merge `action.params` over the
params of the first route whose `key` equals `action.key` and replace that
slot, index unchanged. -/
def setParamsStep (a : NavAction) (st : NavState) (n : Nat) : NavOut :=
  if a.type = NavigationActions.SET_PARAMS then
    match a.key with
    | none => NavOut.fall
    | some k =>
      match st.routes.findIdx? (·.key == k) with
      | none => NavOut.fall
      | some j =>
        let lastRoute := st.routes.getD j dummyRoute
        NavOut.ret
          { sid := n + 2, aid := n + 1, index := st.index,
            routes := st.routes.set j
              { rid := n, key := lastRoute.key, routeName := lastRoute.routeName,
                params := some (objAssign (lastRoute.params.getD [])
                                          ((a.params).getD [])) } } (n + 3)
  else NavOut.fall

/-- Lines 250-271: the broadcast loop over `order` with its running index,
skipping the active index; it stops at the first branch whose router returns
`null` (`some (i, none)`: adopt the index, no replacement) or a changed child
state (`some (i, some r)`: adopt the index and replace the slot);
`none` means no branch responded. -/
def broadcastGo (cfg : TabConfig) (a : NavAction) (routes : List Route) (skip : Nat) :
    List String → Nat → Option (Nat × Option Route)
  | [], _ => none
  | name :: rest, i =>
    if i = skip then broadcastGo cfg a routes skip rest (i + 1)
    else
      match cfg.routerOf name with
      | some cr =>
        match cr.run a (routes[i]?) with
        | ChildRes.nul => some (i, none)
        | ChildRes.same =>
          match routes[i]? with
          | some _ => broadcastGo cfg a routes skip rest (i + 1)
          | none => some (i, none)
        | ChildRes.new r => some (i, some r)
      | none =>
        match routes[i]? with
        | some _ => broadcastGo cfg a routes skip rest (i + 1)
        | none => some (i, none)

/-- The observable outcome of `getStateForAction`: `crash` is the JS
TypeError of the Pass branch; `ok result inputAfter ctr` carries the returned
value (`none` = JS `null`), the value of the caller's `inputState` object
after the call (differing from the value passed in exactly when the Init
branch reassigned `state.routes` in place), and the fresh-identity counter
after the call. -/
inductive RRes where
  | crash : RRes
  | ok (result : Option NavState) (inputAfter : Option NavState) (ctr : Nat) : RRes
  deriving DecidableEq, Repr

/-- Lines 56-282: the reducer `getStateForAction(action, inputState)` of the
TabRouter, assembled from the stage functions above in source order:
normalize, establish/Init, Pass, active-branch delegation, Back/Navigate
index targeting, Navigate body, SetParams, pending index change, the
unsatisfied-Navigate returns, and the broadcast to inactive branches. -/
def tabGetStateForAction (cfg : TabConfig) (a0 : NavAction) (input : Option NavState)
    (n0 : Nat) : RRes :=
  let a := NavigationActions.mapDeprecatedActionAndWarn a0
  let stn := initStage cfg a input n0
  let st := stn.1
  let n1 := stn.2
  let ia : Option NavState := input.map (fun _ => st)
  match passStep cfg a st n1 with
  | PassOut.crash => RRes.crash
  | PassOut.ret s m => RRes.ok (some s) ia m
  | PassOut.fall =>
    match activeStep cfg a input st n1 with
    | ActOut.ret s m => RRes.ok (some s) ia m
    | ActOut.retNull => RRes.ok none ia n1
    | ActOut.fall =>
      let activeTabIndex := (navTargetIndex cfg a).getD (backTargetIndex cfg a st)
      let didNavigate := (navTargetIndex cfg a).isSome
      let afterNav : NavOut :=
        match navTargetIndex cfg a with
        | some ci => navStep cfg a st ci n1
        | none => NavOut.fall
      match afterNav with
      | NavOut.ret s m => RRes.ok (some s) ia m
      | NavOut.fall =>
        match setParamsStep a st n1 with
        | NavOut.ret s m => RRes.ok (some s) ia m
        | NavOut.fall =>
          if activeTabIndex ≠ st.index then
            RRes.ok (some { sid := n1, aid := st.aid, index := activeTabIndex,
                            routes := st.routes }) ia (n1 + 1)
          else if didNavigate = true ∧ input.isNone = true then
            RRes.ok (some st) ia n1
          else if didNavigate = true then
            RRes.ok none ia n1
          else
            match broadcastGo cfg a st.routes st.index cfg.order 0 with
            | none => RRes.ok (some st) ia n1
            | some (i, none) =>
              RRes.ok (some { sid := n1, aid := st.aid, index := i,
                              routes := st.routes }) ia (n1 + 1)
            | some (i, some r) =>
              RRes.ok (some { sid := n1 + 1, aid := n1, index := i,
                              routes := st.routes.set i r }) ia (n1 + 2)

/-- Modelled from the spec: `getScreenForRouteName` (the ComponentResolver,
not under `src/`) resolves a route name to its registered screen; the path
codec only consults the screen's `router`, which the configuration records
(`screen.router` is the same table the constructor put into `tabRouters`). -/
def screenRouterOf (cfg : TabConfig) (name : String) : Option ChildRouter :=
  cfg.routerOf name

/-- Lines 304-322: `getPathAndParamsForState` — the active route's declared
path segment, joined with `/` to the nested router's path when the active
screen owns one, the child's params merged over the route's own. -/
def tabGetPathAndParamsForState (cfg : TabConfig) (s : NavState) :
    String × Option ParamMap :=
  let route := s.routes.getD s.index dummyRoute
  let routeName := (cfg.order[s.index]?).getD ""
  let subPath := pathsOf cfg routeName
  match screenRouterOf cfg routeName with
  | some cr =>
    let child := cr.getPathAndParamsForState route
    (if subPath ≠ "" then subPath ++ "/" ++ child.1 else child.1,
     match child.2 with
     | some cp => some (objAssign ((route.params).getD []) cp)
     | none => route.params)
  | none => (subPath, route.params)

/-- Lines 330-363: the per-route candidate loop of
`getActionForPathAndParams`.  The source computes a `pathMatch` flag that is
always `false` (the declared path is never actually consulted), so: a route
owning a nested router with the method yields a candidate exactly when the
recursive resolution of the FULL path succeeds (attached as `action.action`),
a route without one yields a candidate exactly when no `params` were
supplied; the first candidate in declaration order wins. -/
def gafpapGo (cfg : TabConfig) (path : String) (params : Option ParamMap) :
    List String → Option NavAction
  | [] => none
  | tabId :: rest =>
    match cfg.routerOf tabId with
    | some cr =>
      match cr.gafpap with
      | some f =>
        match f path params with
        | some inner =>
          some (NavAction.nest NavigationActions.NAVIGATE (some tabId) none none inner)
        | none => gafpapGo cfg path params rest
      | none =>
        if params.isSome then gafpapGo cfg path params rest
        else some (NavigationActions.navigate tabId)
    | none =>
      if params.isSome then gafpapGo cfg path params rest
      else some (NavigationActions.navigate tabId)

/-- Lines 329-364: `getActionForPathAndParams(path, params)` — first
successful candidate over `order`, else `null`. -/
def tabGetActionForPathAndParams (cfg : TabConfig) (path : String)
    (params : Option ParamMap) : Option NavAction :=
  gafpapGo cfg path params cfg.order

/-- Construction-time validity (the constructor's `invariant` together with
`validateRouteConfigMap`): a nonempty, duplicate-free order containing
`initialRouteName`. -/
def WfCfg (cfg : TabConfig) : Prop :=
  cfg.order ≠ [] ∧ cfg.order.Nodup ∧ cfg.initialRouteName ∈ cfg.order

/-- The state invariant at this router's level: the index is in range and
the routes mirror the declaration order. -/
def WfState (cfg : TabConfig) (s : NavState) : Prop :=
  s.index < s.routes.length ∧ s.routes.map Route.routeName = cfg.order

/-- All object identities occurring in `s` are below `n`, so identifiers
drawn from `n` upward denote objects distinct from every object of `s`. -/
def FreshFor (n : Nat) (s : NavState) : Prop :=
  s.sid < n ∧ s.aid < n ∧ ∀ r ∈ s.routes, r.rid < n

/-- A two-tab configuration with no nested routers. -/
def cfgA : TabConfig :=
  { order := ["A", "B"], initialRouteName := "A", backBehavior := "initialRoute",
    pathOf := fun _ => none, routerOf := fun _ => none }


/-- A state fixture: two leaf routes, first one active. -/
def sAB : NavState :=
  ⟨0, 1, 0, [⟨2, "A", "A", none⟩, ⟨3, "B", "B", none⟩]⟩

theorem initStage_of_type_ne (cfg : TabConfig) (a : NavAction) (s : NavState) (n : Nat)
    (h : a.type ≠ NavigationActions.INIT) : initStage cfg a (some s) n = (s, n) := by
  unfold initStage
  simp [h]

theorem passStep_of_type_ne (cfg : TabConfig) (a : NavAction) (st : NavState) (n : Nat)
    (h : a.type ≠ NavigationActions.PASS) : passStep cfg a st n = PassOut.fall := by
  unfold passStep
  simp [h]

theorem setParamsStep_of_type_ne (a : NavAction) (st : NavState) (n : Nat)
    (h : a.type ≠ NavigationActions.SET_PARAMS) : setParamsStep a st n = NavOut.fall := by
  unfold setParamsStep
  simp [h]

theorem navTargetIndex_of_type_ne (cfg : TabConfig) (a : NavAction)
    (h : a.type ≠ NavigationActions.NAVIGATE) : navTargetIndex cfg a = none := by
  unfold navTargetIndex
  simp [h]

theorem backTargetIndex_of_type_ne (cfg : TabConfig) (a : NavAction) (st : NavState)
    (h : a.type ≠ NavigationActions.BACK) : backTargetIndex cfg a st = st.index := by
  unfold backTargetIndex
  simp [h]

theorem activeStep_of_no_router (cfg : TabConfig) (a : NavAction) (input : Option NavState)
    (st : NavState) (n : Nat) (h : activeRouterOf cfg st = none) :
    activeStep cfg a input st n = ActOut.fall := by
  unfold activeStep
  rw [h]

theorem activeStep_of_same (cfg : TabConfig) (a : NavAction) (input : Option NavState)
    (st : NavState) (n : Nat) (cr : ChildRouter) (rt : Route)
    (h : activeRouterOf cfg st = some cr) (hr : st.routes[st.index]? = some rt)
    (hs : cr.run (a.nested.getD a) (some rt) = ChildRes.same) :
    activeStep cfg a input st n = ActOut.fall := by
  unfold activeStep
  simp [h, hr, hs]

theorem activeStep_of_nul (cfg : TabConfig) (a : NavAction) (s0 : NavState)
    (st : NavState) (n : Nat) (cr : ChildRouter)
    (h : activeRouterOf cfg st = some cr)
    (hs : cr.run (a.nested.getD a) (st.routes[st.index]?) = ChildRes.nul) :
    activeStep cfg a (some s0) st n = ActOut.retNull := by
  unfold activeStep
  simp [h, hs]

theorem activeStep_no_input_ne_retNull (cfg : TabConfig) (a : NavAction) (st : NavState)
    (n : Nat) : activeStep cfg a none st n ≠ ActOut.retNull := by
  unfold activeStep
  cases h : activeRouterOf cfg st with
  | none => simp [h]
  | some cr =>
    cases hs : cr.run (a.nested.getD a) (st.routes[st.index]?) with
    | nul => simp [h, hs]
    | same =>
      cases hg : st.routes[st.index]? <;> rw [hg] at hs <;> simp [h, hs, hg]
    | new r => simp [h, hs]

/-- Whether the reducer returned the JS `null`. -/
def RRes.isNullResult : RRes → Bool
  | RRes.ok none _ _ => true
  | _ => false

/-- C10: with an absent input state the reducer never returns `null` — both
null-return sites (the active-branch `!activeTabState && inputState` guard
and the unsatisfied-Navigate return) require a supplied input state, so
whenever the first reduction returns, it returns a navigation state. -/
theorem C10_no_null_on_first_reduction (cfg : TabConfig) (a : NavAction) (n : Nat) :
    (tabGetStateForAction cfg a none n).isNullResult = false := by
  unfold tabGetStateForAction
  simp only [NavigationActions.mapDeprecatedActionAndWarn, Option.map_none']
  split
  · rfl
  · rfl
  · split
    · rfl
    · exact absurd (by assumption) (activeStep_no_input_ne_retNull cfg a _ _)
    · split
      · rfl
      · split
        · rfl
        · split
          · rfl
          · split
            · rfl
            · split
              · simp_all
              · split <;> rfl

/-- C3: dispatching a Pass action (with an embedded action) addressed to the
declared route "A", which owns no nested router.  `tabRouters["A"]` is the
explicit `null` the constructor stored, which passes the
`childRouter !== undefined` guard; the route is found by name, and
`childRouter.getStateForAction` then dereferences `null` — the reducer
throws instead of ignoring the Pass branch as the spec states. -/
theorem C3_pass_to_routerless_route_crashes :
    tabGetStateForAction cfgA
      (NavAction.nest NavigationActions.PASS (some "A") none none
        (NavAction.mk NavigationActions.INIT none none none))
      (some sAB) 10 = RRes.crash := by decide

/-- Input state for the Init-merge counterexample: route "A" already carries
exactly the params the Init action brings, so the merge changes nothing for
it. -/
def sInit : NavState :=
  ⟨0, 1, 0, [⟨2, "A", "A", some [("x", 1)]⟩, ⟨3, "B", "B", none⟩]⟩

/-- An Init action carrying params `x = 1`. -/
def aInit : NavAction := NavAction.mk NavigationActions.INIT none none (some [("x", 1)])

/-- What the Init branch actually produces on `sInit`: the same state object
(`sid` 0) whose `routes` field was reassigned in place to a fresh array of
entirely fresh route objects. -/
def sInitOut : NavState :=
  ⟨0, 102, 0, [⟨100, "A", "A", some [("x", 1)]⟩, ⟨101, "B", "B", some [("x", 1)]⟩]⟩

/-- C1 counterexample: reducing an Init action carrying params against a
supplied input state.  Route "A"'s params are unchanged by the merge, yet the
route in the result is a fresh object (`rid` 100, not the input's 2), and the
input state object itself was mutated (`inputAfter` differs from the value
passed in): both the no-in-place-mutation and the identity-preservation
halves of the claim fail. -/
theorem C1_counterexample :
    tabGetStateForAction cfgA aInit (some sInit) 100 =
      RRes.ok (some sInitOut) (some sInitOut) 103 ∧
    (sInitOut.routes.getD 0 dummyRoute).params = (sInit.routes.getD 0 dummyRoute).params ∧
    (sInitOut.routes.getD 0 dummyRoute).rid ≠ (sInit.routes.getD 0 dummyRoute).rid ∧
    some sInitOut ≠ some sInit := by decide

/-- C2 counterexample: with an absent input state, a Navigate action to "B"
returns a state whose index is 1, the position of "B", not the position 0 of
`initialRouteName` "A". -/
theorem C2_counterexample :
    tabGetStateForAction cfgA (NavigationActions.navigate "B") none 0 =
      RRes.ok (some ⟨4, 2, 1, [⟨0, "A", "A", none⟩, ⟨1, "B", "B", none⟩]⟩) none 5 ∧
    (1 : Nat) ≠ initialRouteIndex cfgA := by decide

theorem initStage_none_index (cfg : TabConfig) (a : NavAction) (n : Nat) :
    (initStage cfg a none n).1.index = initialRouteIndex cfg := by
  unfold initStage defaultTabState
  by_cases ht : a.type = NavigationActions.INIT
  · cases hp : a.params <;> simp [ht, hp]
  · simp [ht]

theorem initMergeRoutes_length (p : ParamMap) :
    ∀ (rs : List Route) (n : Nat), ((initMergeRoutes p rs n).1).length = rs.length := by
  intro rs
  induction rs with
  | nil => intro n; rfl
  | cons r rest ih => intro n; simp [initMergeRoutes, ih]

theorem defaultRoutes_length (cfg : TabConfig) (a : NavAction) :
    ∀ (names : List String) (n : Nat),
      ((defaultRoutes cfg a names n).1).length = names.length := by
  intro names
  induction names with
  | nil => intro n; rfl
  | cons name rest ih => intro n; simp [defaultRoutes, ih]

theorem initStage_none_length (cfg : TabConfig) (a : NavAction) (n : Nat) :
    (initStage cfg a none n).1.routes.length = cfg.order.length := by
  unfold initStage defaultTabState
  by_cases ht : a.type = NavigationActions.INIT
  · cases hp : a.params <;>
      simp [ht, hp, initMergeRoutes_length, defaultRoutes_length]
  · simp [ht, defaultRoutes_length]

theorem initialRouteIndex_lt (cfg : TabConfig) (h : cfg.initialRouteName ∈ cfg.order) :
    initialRouteIndex cfg < cfg.order.length := by
  unfold initialRouteIndex
  exact List.findIdx_lt_length_of_exists ⟨_, h, by simp⟩

/-- The broadcast loop finds no responder when every (non-skipped) position
has a present route and its router, when any, leaves that route unchanged. -/
theorem broadcastGo_none_of_same (cfg : TabConfig) (a : NavAction) (routes : List Route)
    (skip : Nat) :
    ∀ (names : List String) (i0 : Nat),
      (∀ j name, names[j]? = some name →
        (∃ rt, routes[i0 + j]? = some rt) ∧
        (∀ cr, cfg.routerOf name = some cr →
          cr.run a (routes[i0 + j]?) = ChildRes.same)) →
      broadcastGo cfg a routes skip names i0 = none := by
  intro names
  induction names with
  | nil => intro i0 h; rfl
  | cons name rest ih =>
    intro i0 h
    have hshift : ∀ j nm, rest[j]? = some nm →
        (∃ rt, routes[(i0 + 1) + j]? = some rt) ∧
        (∀ cr, cfg.routerOf nm = some cr →
          cr.run a (routes[(i0 + 1) + j]?) = ChildRes.same) := by
      intro j nm hj
      have h2 := h (j + 1) nm (by simpa using hj)
      have : i0 + (j + 1) = (i0 + 1) + j := by omega
      rw [this] at h2
      exact h2
    have h0 := h 0 name (by simp)
    rw [Nat.add_zero] at h0
    obtain ⟨⟨rt, hrt⟩, hcr⟩ := h0
    unfold broadcastGo
    by_cases hsk : i0 = skip
    · rw [if_pos hsk]
      exact ih (i0 + 1) hshift
    · rw [if_neg hsk]
      cases hro : cfg.routerOf name with
      | none =>
        simp only [hrt]
        exact ih (i0 + 1) hshift
      | some cr =>
        have hc2 := hcr cr hro
        rw [hrt] at hc2
        simp only [hrt, hc2]
        exact ih (i0 + 1) hshift

/-- C7: for a supplied input state and an action matching no branch — the
Init merge inapplicable, the Pass branch falling through, no handler in the
active branch (no router or an unchanged child state), no eligible index
change, no matching tab, no SetParams match, and no responding sibling
branch — the reducer returns the exact input state object: same identity
(`sid` and all), and the allocation counter is unchanged, so no new object
was even created. -/
theorem C7_identity_on_unmatched_action (cfg : TabConfig) (a : NavAction)
    (s : NavState) (n : Nat)
    (hInit : ¬(a.type = NavigationActions.INIT ∧ (a.params).isSome = true))
    (hPass : passStep cfg a s n = PassOut.fall)
    (hAct : activeStep cfg a (some s) s n = ActOut.fall)
    (hBack : backTargetIndex cfg a s = s.index)
    (hNav : navTargetIndex cfg a = none)
    (hSp : setParamsStep a s n = NavOut.fall)
    (hBr : broadcastGo cfg a s.routes s.index cfg.order 0 = none) :
    tabGetStateForAction cfg a (some s) n = RRes.ok (some s) (some s) n := by
  have hst : initStage cfg a (some s) n = (s, n) := by
    unfold initStage
    by_cases ht : a.type = NavigationActions.INIT
    · cases hp : a.params with
      | none => simp [ht, hp]
      | some p => exact absurd ⟨ht, by simp [hp]⟩ hInit
    · simp [ht]
  unfold tabGetStateForAction
  simp only [NavigationActions.mapDeprecatedActionAndWarn, hst, Option.map_some']
  simp only [hPass, hAct, hNav, hBack, hSp, Option.getD_none]
  simp [hBr]

/-- An action type no branch of the TabRouter recognizes. -/
def aUnknown : NavAction := NavAction.mk "App/CUSTOM" none none none

theorem C7_identity_on_unmatched_action_witness :
    tabGetStateForAction cfgA aUnknown (some sAB) 10 = RRes.ok (some sAB) (some sAB) 10 :=
  C7_identity_on_unmatched_action cfgA aUnknown sAB 10
    (by decide) (by decide) (by decide) (by decide) (by decide) (by decide) (by decide)

/-- A nested router that treats every action as unhandled (always returns
`null`). -/
def crNul : ChildRouter := ⟨fun _ _ => ChildRes.nul, fun _ => ("", none), none⟩

/-- The fresh route a sibling child router will answer with. -/
def rNew : Route := ⟨99, "B", "B", some [("z", 5)]⟩

/-- A nested router that always answers with the fresh state `rNew`. -/
def crNewB : ChildRouter := ⟨fun _ _ => ChildRes.new rNew, fun _ => ("", none), none⟩

/-- Two tabs, both with nested routers: the active "A" rejects everything,
"B" always responds. -/
def cfgC4 : TabConfig :=
  { order := ["A", "B"], initialRouteName := "A", backBehavior := "initialRoute",
    pathOf := fun _ => none,
    routerOf := fun nm =>
      if nm = "A" then some crNul else if nm = "B" then some crNewB else none }

/-- A Pass action addressed to "B" carrying an embedded action. -/
def aPassB : NavAction :=
  NavAction.nest NavigationActions.PASS (some "B") none none
    (NavAction.mk "Child/DO" none none none)

/-- C4 counterexample: the input state is supplied, the active route "A" owns
a nested router, and forwarding the embedded action to it yields `null` —
yet the reducer does not return `null`: the Pass branch (checked before the
active-branch delegation) already returned a new state. -/
theorem C4_counterexample :
    activeRouterOf cfgC4 sAB = some crNul ∧
    crNul.run (aPassB.nested.getD aPassB) sAB.routes[sAB.index]? = ChildRes.nul ∧
    tabGetStateForAction cfgC4 aPassB (some sAB) 10 =
      RRes.ok (some ⟨11, 10, 0, [⟨2, "A", "A", none⟩, rNew]⟩) (some sAB) 12 :=
  ⟨rfl, by decide, by decide⟩

/-- C4 amended: for every action THAT IS NOT A PASS ACTION and every supplied
input state whose active route owns a nested router, if forwarding the action
(or its embedded `action.action`) to that active child router yields `null`,
the reducer returns `null` (the state position is the one after the Init
branch, which is the input state itself for every non-Init action). -/
theorem C4_null_propagation (cfg : TabConfig) (a : NavAction) (s : NavState) (n : Nat)
    (cr : ChildRouter)
    (hnp : a.type ≠ NavigationActions.PASS)
    (hcr : activeRouterOf cfg (initStage cfg a (some s) n).1 = some cr)
    (hnul : cr.run (a.nested.getD a)
        (initStage cfg a (some s) n).1.routes[(initStage cfg a (some s) n).1.index]? =
      ChildRes.nul) :
    tabGetStateForAction cfg a (some s) n =
      RRes.ok none (some (initStage cfg a (some s) n).1) (initStage cfg a (some s) n).2 := by
  unfold tabGetStateForAction
  simp only [NavigationActions.mapDeprecatedActionAndWarn, Option.map_some',
    passStep_of_type_ne cfg a _ _ hnp,
    activeStep_of_nul cfg a s _ _ cr hcr hnul]

/-- A config whose single-router tab "A" rejects every action. -/
def cfgN4 : TabConfig :=
  { order := ["A", "B"], initialRouteName := "A", backBehavior := "initialRoute",
    pathOf := fun _ => none,
    routerOf := fun nm => if nm = "A" then some crNul else none }

theorem C4_null_propagation_witness :
    tabGetStateForAction cfgN4 aUnknown (some sAB) 5 = RRes.ok none (some sAB) 5 :=
  C4_null_propagation cfgN4 aUnknown sAB 5 crNul (by decide) rfl rfl

/-- Two tabs where only "B" owns a nested router (which rejects every
action); "A" is the initial route. -/
def cfgC6 : TabConfig :=
  { order := ["A", "B"], initialRouteName := "A", backBehavior := "initialRoute",
    pathOf := fun _ => none,
    routerOf := fun nm => if nm = "B" then some crNul else none }

/-- The two-tab state with "B" active. -/
def sActiveB : NavState := ⟨0, 1, 1, [⟨2, "A", "A", none⟩, ⟨3, "B", "B", none⟩]⟩

/-- A canonical Back action (no key). -/
def aBack : NavAction := NavAction.mk NavigationActions.BACK none none none

/-- C6 counterexample: `backBehavior = initialRoute`, the active tab (index
1) is not the initial one, the Back action carries no key — yet the reducer
returns `null` rather than a state with the initial index, because the
active tab's nested router is consulted first and its `null` answer is
propagated. -/
theorem C6_counterexample :
    cfgC6.backBehavior = "initialRoute" ∧
    sActiveB.index ≠ initialRouteIndex cfgC6 ∧
    tabGetStateForAction cfgC6 aBack (some sActiveB) 10 =
      RRes.ok none (some sActiveB) 10 :=
  ⟨rfl, by decide, by decide⟩

/-- C6 amended: with `backBehavior = initialRoute`, a Back action whose key
is absent or equal to the active route's key, dispatched from a non-initial
active tab WHOSE NESTED ROUTER (IF ANY) LEAVES ITS STATE UNCHANGED, moves
the index to the initial route's position; the routes array is returned
untouched (same array object), so the previously active tab's child state is
preserved identically. -/
theorem C6_back_to_initial (cfg : TabConfig) (a : NavAction) (s : NavState) (n : Nat)
    (art : Route)
    (htype : a.type = NavigationActions.BACK)
    (hnested : a.nested = none)
    (hrt : s.routes[s.index]? = some art)
    (hkey : a.key = none ∨ a.key = some art.key)
    (hbb : cfg.backBehavior = "initialRoute")
    (hne : s.index ≠ initialRouteIndex cfg)
    (hact : ∀ cr, activeRouterOf cfg s = some cr →
      cr.run a (some art) = ChildRes.same) :
    tabGetStateForAction cfg a (some s) n =
      RRes.ok (some { sid := n, aid := s.aid, index := initialRouteIndex cfg,
                      routes := s.routes }) (some s) (n + 1) := by
  have hst : initStage cfg a (some s) n = (s, n) :=
    initStage_of_type_ne _ _ _ _ (by rw [htype]; decide)
  have hpass : passStep cfg a s n = PassOut.fall :=
    passStep_of_type_ne _ _ _ _ (by rw [htype]; decide)
  have hAct : activeStep cfg a (some s) s n = ActOut.fall := by
    cases hro : activeRouterOf cfg s with
    | none => exact activeStep_of_no_router _ _ _ _ _ hro
    | some cr =>
      refine activeStep_of_same cfg a (some s) s n cr art hro hrt ?_
      simpa [hnested] using hact cr hro
  have hnav : navTargetIndex cfg a = none :=
    navTargetIndex_of_type_ne _ _ (by rw [htype]; decide)
  have hsp : setParamsStep a s n = NavOut.fall :=
    setParamsStep_of_type_ne _ _ _ (by rw [htype]; decide)
  have hsb : shouldBackNavigateToInitialRoute cfg = true := by
    unfold shouldBackNavigateToInitialRoute
    rw [hbb]
    decide
  have hbt : backTargetIndex cfg a s = initialRouteIndex cfg := by
    unfold backTargetIndex
    rcases hkey with hk | hk
    · simp [hk, htype, hsb]
    · simp [hk, hrt, htype, hsb]
  unfold tabGetStateForAction
  simp only [NavigationActions.mapDeprecatedActionAndWarn, hst, Option.map_some']
  simp only [hpass, hAct, hnav, hsp, hbt, Option.getD_none]
  rw [if_pos (Ne.symm hne)]

theorem C6_back_to_initial_witness :
    tabGetStateForAction cfgA aBack (some sActiveB) 10 =
      RRes.ok (some { sid := 10, aid := sActiveB.aid, index := initialRouteIndex cfgA,
                      routes := sActiveB.routes }) (some sActiveB) 11 := by
  apply C6_back_to_initial cfgA aBack sActiveB 10 ⟨3, "B", "B", none⟩ rfl rfl (by decide)
    (Or.inl rfl) rfl (by decide)
  intro cr h
  have hz : activeRouterOf cfgA sActiveB = none := rfl
  rw [hz] at h
  exact Option.noConfusion h

/-- In a duplicate-free list, the first index whose entry equals `x` is the
(unique) index holding `x`. -/
theorem findIdx?_beq_of_nodup (l : List String) (i : Nat) (x : String)
    (hn : l.Nodup) (hi : l[i]? = some x) : l.findIdx? (· == x) = some i := by
  rw [List.findIdx?_eq_some_iff_getElem]
  obtain ⟨hlt, hx⟩ := List.getElem?_eq_some_iff.mp hi
  refine ⟨hlt, by simp [hx], ?_⟩
  intro j hji
  have hb : j < l.length := Nat.lt_trans hji hlt
  have hne : j ≠ i := Nat.ne_of_lt hji
  have hgne : l[j] ≠ l[i] := fun hcontra =>
    hne ((List.Nodup.getElem_inj_iff hn).mp hcontra)
  simp [hx] at hgne ⊢
  exact hgne

/-- C5: on a supplied well-formed input state, a canonical Navigate action to
the currently active route (no params, no embedded action) whose target
child state is unchanged — the active route's router, when there is one,
does not answer with a changed state — makes the reducer return `null`:
either the null-propagation guard of the active branch fires, or the
Navigate matched a tab without any state change and the
unsatisfied-Navigate return yields `null`. -/
theorem C5_navigate_to_active_unchanged_returns_null (cfg : TabConfig) (s : NavState)
    (n : Nat) (art : Route) (a : NavAction)
    (hnodup : cfg.order.Nodup)
    (hws : WfState cfg s)
    (hrt : s.routes[s.index]? = some art)
    (hav : a = NavigationActions.navigate art.routeName)
    (hact : ∀ cr r, activeRouterOf cfg s = some cr →
      cr.run a (some art) ≠ ChildRes.new r) :
    tabGetStateForAction cfg a (some s) n = RRes.ok none (some s) n := by
  subst hav
  have hst : initStage cfg (NavigationActions.navigate art.routeName) (some s) n = (s, n) :=
    initStage_of_type_ne _ _ _ _
      (show NavigationActions.NAVIGATE ≠ NavigationActions.INIT by decide)
  have hpass : passStep cfg (NavigationActions.navigate art.routeName) s n = PassOut.fall :=
    passStep_of_type_ne _ _ _ _
      (show NavigationActions.NAVIGATE ≠ NavigationActions.PASS by decide)
  have hsp : setParamsStep (NavigationActions.navigate art.routeName) s n = NavOut.fall :=
    setParamsStep_of_type_ne _ _ _
      (show NavigationActions.NAVIGATE ≠ NavigationActions.SET_PARAMS by decide)
  have horder : cfg.order[s.index]? = some art.routeName := by
    obtain ⟨hidx, hmap⟩ := hws
    have hh : (s.routes.map Route.routeName)[s.index]? = some art.routeName := by
      simp [List.getElem?_map, hrt]
    rwa [hmap] at hh
  have hnv : navTargetIndex cfg (NavigationActions.navigate art.routeName) = some s.index := by
    unfold navTargetIndex
    simp only [NavigationActions.navigate, NavAction.type, NavAction.routeName]
    rw [if_pos trivial]
    exact findIdx?_beq_of_nodup _ _ _ hnodup horder
  have hnavstep : navStep cfg (NavigationActions.navigate art.routeName) s s.index n =
      NavOut.fall := by
    unfold navStep
    cases hro : cfg.routerOf art.routeName <;>
      simp [hro, NavigationActions.navigate, NavAction.routeName, NavAction.nested,
        NavAction.params]
  have hrun : activeStep cfg (NavigationActions.navigate art.routeName) (some s) s n =
        ActOut.retNull ∨
      activeStep cfg (NavigationActions.navigate art.routeName) (some s) s n =
        ActOut.fall := by
    cases hro : activeRouterOf cfg s with
    | none => exact Or.inr (activeStep_of_no_router _ _ _ _ _ hro)
    | some cr =>
      cases hcr : cr.run ((NavigationActions.navigate art.routeName).nested.getD
          (NavigationActions.navigate art.routeName)) (s.routes[s.index]?) with
      | nul => exact Or.inl (activeStep_of_nul _ _ _ _ _ cr hro hcr)
      | same =>
        refine Or.inr (activeStep_of_same _ _ _ _ _ cr art hro hrt ?_)
        rw [hrt] at hcr
        exact hcr
      | new r =>
        rw [hrt] at hcr
        exact absurd hcr (hact cr r hro)
  rcases hrun with hAct | hAct
  · unfold tabGetStateForAction
    simp only [NavigationActions.mapDeprecatedActionAndWarn, hst, Option.map_some',
      hpass, hAct]
  · unfold tabGetStateForAction
    simp only [NavigationActions.mapDeprecatedActionAndWarn, hst, Option.map_some',
      hpass, hAct, hnv, hnavstep, hsp]
    simp

theorem C5_navigate_to_active_unchanged_returns_null_witness :
    tabGetStateForAction cfgA (NavigationActions.navigate "A") (some sAB) 7 =
      RRes.ok none (some sAB) 7 := by
  apply C5_navigate_to_active_unchanged_returns_null cfgA sAB 7 ⟨2, "A", "A", none⟩
    (NavigationActions.navigate "A") (by decide) (by exact ⟨by decide, by decide⟩)
    (by decide) rfl
  intro cr r h
  have hz : activeRouterOf cfgA sAB = none := rfl
  rw [hz] at h
  exact Option.noConfusion h

/-- A nested router satisfying the routers' Init contract that this router
itself obeys: an Init action reduced against an existing child state returns
that state object unchanged. -/
def InitSame (cr : ChildRouter) : Prop :=
  ∀ (a : NavAction) (r : Route), a.type = NavigationActions.INIT →
    cr.run a (some r) = ChildRes.same

/-- C2 amended: for a valid configuration whose nested routers obey the Init
contract (`InitSame`), reducing an INIT action (no embedded action) with an
absent input state returns a state whose index is the position of
`initialRouteName` in `order`.  (For other actions the returned index can
differ — see the Navigate counterexample.) -/
theorem C2_absent_input_init_yields_initial_index (cfg : TabConfig) (a : NavAction)
    (n : Nat)
    (hwf : WfCfg cfg)
    (hty : a.type = NavigationActions.INIT)
    (hnst : a.nested = none)
    (hcs : ∀ name ∈ cfg.order, ∀ cr, cfg.routerOf name = some cr → InitSame cr) :
    ∃ st m, tabGetStateForAction cfg a none n = RRes.ok (some st) none m ∧
      st.index = initialRouteIndex cfg := by
  obtain ⟨hne, hnodup, hmem⟩ := hwf
  obtain ⟨st1, n1, hstn⟩ : ∃ st1 n1, initStage cfg a none n = (st1, n1) := ⟨_, _, rfl⟩
  have hpay : a.nested.getD a = a := by
    rw [hnst]
    rfl
  have hidx : st1.index = initialRouteIndex cfg := by
    have h := initStage_none_index cfg a n
    rw [hstn] at h
    exact h
  have hlen : st1.routes.length = cfg.order.length := by
    have h := initStage_none_length cfg a n
    rw [hstn] at h
    exact h
  have hlt : initialRouteIndex cfg < cfg.order.length := initialRouteIndex_lt cfg hmem
  have hltr : st1.index < st1.routes.length := by
    rw [hidx, hlen]
    exact hlt
  obtain ⟨rt, hrt⟩ : ∃ rt, st1.routes[st1.index]? = some rt :=
    ⟨_, List.getElem?_eq_getElem hltr⟩
  obtain ⟨nm, hnm⟩ : ∃ nm, cfg.order[st1.index]? = some nm := by
    rw [hidx]
    exact ⟨_, List.getElem?_eq_getElem hlt⟩
  have hAct : activeStep cfg a none st1 n1 = ActOut.fall := by
    cases hro : cfg.routerOf nm with
    | none =>
      apply activeStep_of_no_router
      unfold activeRouterOf
      rw [hnm]
      exact hro
    | some cr =>
      refine activeStep_of_same cfg a none st1 n1 cr rt ?_ hrt ?_
      · unfold activeRouterOf
        rw [hnm]
        exact hro
      · rw [hpay]
        exact hcs nm (List.getElem?_mem hnm) cr hro a rt hty
  have hpass : passStep cfg a st1 n1 = PassOut.fall :=
    passStep_of_type_ne _ _ _ _ (by rw [hty]; decide)
  have hnav : navTargetIndex cfg a = none :=
    navTargetIndex_of_type_ne _ _ (by rw [hty]; decide)
  have hsp : setParamsStep a st1 n1 = NavOut.fall :=
    setParamsStep_of_type_ne _ _ _ (by rw [hty]; decide)
  have hbt : backTargetIndex cfg a st1 = st1.index :=
    backTargetIndex_of_type_ne _ _ _ (by rw [hty]; decide)
  have hbr : broadcastGo cfg a st1.routes st1.index cfg.order 0 = none := by
    apply broadcastGo_none_of_same
    intro j name hj
    have hjlt : j < cfg.order.length := by
      rcases Nat.lt_or_ge j cfg.order.length with h | h
      · exact h
      · rw [List.getElem?_eq_none h] at hj
        exact Option.noConfusion hj
    have hjr : (0 + j) < st1.routes.length := by
      rw [hlen]
      omega
    obtain ⟨rtj, hrtj⟩ : ∃ rtj, st1.routes[0 + j]? = some rtj :=
      ⟨_, List.getElem?_eq_getElem hjr⟩
    refine ⟨⟨rtj, hrtj⟩, ?_⟩
    intro cr hro
    rw [hrtj]
    exact hcs name (List.getElem?_mem hj) cr hro a rtj hty
  refine ⟨st1, n1, ?_, hidx⟩
  unfold tabGetStateForAction
  simp only [NavigationActions.mapDeprecatedActionAndWarn, Option.map_none', hstn]
  simp only [hpass, hAct, hnav, hbt, hsp, Option.getD_none]
  simp [hbr]

theorem C2_absent_input_init_yields_initial_index_witness :
    (∃ st m, tabGetStateForAction cfgA (NavigationActions.init (some [("x", 1)])) none 0 =
        RRes.ok (some st) none m ∧ st.index = initialRouteIndex cfgA) := by
  apply C2_absent_input_init_yields_initial_index cfgA
    (NavigationActions.init (some [("x", 1)])) 0 (by exact ⟨by decide, by decide, by decide⟩)
    rfl rfl
  intro name hname cr hcr
  have hz : cfgA.routerOf name = none := rfl
  rw [hz] at hcr
  exact Option.noConfusion hcr

/-- The `inputAfter` component of a non-crashing reduction. -/
def RRes.inputAfterOf : RRes → Option (Option NavState)
  | RRes.crash => none
  | RRes.ok _ ia _ => some ia

/-- For every non-Pass action (the only branch that can throw), the caller's
input object after the call is the state as left by the establish/Init
stage. -/
theorem inputAfterOf_of_not_pass (cfg : TabConfig) (a : NavAction) (input : Option NavState)
    (n : Nat) (h : a.type ≠ NavigationActions.PASS) :
    RRes.inputAfterOf (tabGetStateForAction cfg a input n) =
      some (input.map (fun _ => (initStage cfg a input n).1)) := by
  unfold tabGetStateForAction
  simp only [NavigationActions.mapDeprecatedActionAndWarn,
    passStep_of_type_ne cfg a _ _ h]
  repeat' split
  all_goals rfl

theorem initMergeRoutes_ctr (p : ParamMap) :
    ∀ (rs : List Route) (n : Nat), (initMergeRoutes p rs n).2 = n + rs.length := by
  intro rs
  induction rs with
  | nil => intro n; rfl
  | cons r rest ih =>
    intro n
    simp [initMergeRoutes, ih]
    omega

theorem initMergeRoutes_get (p : ParamMap) :
    ∀ (rs : List Route) (n j : Nat) (r0 : Route), rs[j]? = some r0 →
      ((initMergeRoutes p rs n).1)[j]? =
        some ⟨n + j, r0.key, r0.routeName, some (objAssign (r0.params.getD []) p)⟩ := by
  intro rs
  induction rs with
  | nil => intro n j r0 h; simp at h
  | cons r rest ih =>
    intro n j r0 h
    cases j with
    | zero =>
      rw [List.getElem?_cons_zero] at h
      cases h
      simp [initMergeRoutes]
    | succ j' =>
      rw [List.getElem?_cons_succ] at h
      have harith : n + (j' + 1) = (n + 1) + j' := by omega
      rw [harith]
      simp only [initMergeRoutes, List.getElem?_cons_succ]
      exact ih (n + 1) j' r0 h

/-- C1 amended: the Init branch on a supplied input state with params merges
the action's params (action params winning) over every route's own params,
but it does so destructively and wholesale: the input state object itself is
mutated (same `sid`, `routes` reassigned to a fresh array), and EVERY route
slot — including the ones whose params the merge leaves unchanged — is
rebuilt as a freshly allocated Route object, so no route of the input is
present in the result by identity. -/
theorem C1_init_merge_mutates_and_rebuilds (cfg : TabConfig) (a : NavAction) (p : ParamMap)
    (s : NavState) (n : Nat)
    (hty : a.type = NavigationActions.INIT)
    (hp : a.params = some p)
    (hfresh : FreshFor n s) :
    RRes.inputAfterOf (tabGetStateForAction cfg a (some s) n) =
      some (some (initStage cfg a (some s) n).1) ∧
    (initStage cfg a (some s) n).1.sid = s.sid ∧
    (initStage cfg a (some s) n).1.aid ≠ s.aid ∧
    (initStage cfg a (some s) n).1.routes.length = s.routes.length ∧
    (∀ (j : Nat) (r0 : Route), s.routes[j]? = some r0 →
      ∃ (rj : Route), (initStage cfg a (some s) n).1.routes[j]? = some rj ∧
        rj.key = r0.key ∧
        rj.routeName = r0.routeName ∧
        rj.params = some (objAssign (r0.params.getD []) p) ∧
        ∀ r1, r1 ∈ s.routes → rj.rid ≠ r1.rid) := by
  have hre : initStage cfg a (some s) n =
      ({ s with aid := (initMergeRoutes p s.routes n).2,
                routes := (initMergeRoutes p s.routes n).1 },
       (initMergeRoutes p s.routes n).2 + 1) := by
    unfold initStage
    simp [hty, hp]
  have hctr : (initMergeRoutes p s.routes n).2 = n + s.routes.length :=
    initMergeRoutes_ctr p s.routes n
  refine ⟨?_, ?_, ?_, ?_, ?_⟩
  · rw [inputAfterOf_of_not_pass cfg a (some s) n (by rw [hty]; decide)]
    rfl
  · rw [hre]
  · rw [hre]
    simp only []
    rw [hctr]
    have := hfresh.2.1
    omega
  · rw [hre]
    simp only []
    exact initMergeRoutes_length p s.routes n
  · intro j r0 h0
    refine ⟨⟨n + j, r0.key, r0.routeName, some (objAssign (r0.params.getD []) p)⟩, ?_,
      rfl, rfl, rfl, ?_⟩
    · rw [hre]
      simp only []
      exact initMergeRoutes_get p s.routes n j r0 h0
    · intro r1 hr1
      have := hfresh.2.2 r1 hr1
      simp only []
      omega

theorem C1_init_merge_mutates_and_rebuilds_witness :
    RRes.inputAfterOf (tabGetStateForAction cfgA aInit (some sInit) 100) =
      some (some (initStage cfgA aInit (some sInit) 100).1) ∧
    (initStage cfgA aInit (some sInit) 100).1.sid = sInit.sid ∧
    (initStage cfgA aInit (some sInit) 100).1.aid ≠ sInit.aid ∧
    (initStage cfgA aInit (some sInit) 100).1.routes.length = sInit.routes.length ∧
    (∀ (j : Nat) (r0 : Route), sInit.routes[j]? = some r0 →
      ∃ (rj : Route), (initStage cfgA aInit (some sInit) 100).1.routes[j]? = some rj ∧
        rj.key = r0.key ∧
        rj.routeName = r0.routeName ∧
        rj.params = some (objAssign (r0.params.getD []) [("x", 1)]) ∧
        ∀ r1, r1 ∈ sInit.routes → rj.rid ≠ r1.rid) :=
  C1_init_merge_mutates_and_rebuilds cfgA aInit [("x", 1)] sInit 100 rfl rfl
    ⟨by decide, by decide, by decide⟩

/-- In a params object with duplicate-free keys, looking up an entry's own
key finds exactly that entry. -/
theorem lookup_self_of_nodupkeys :
    ∀ (b : ParamMap), (b.map Prod.fst).Nodup → ∀ q ∈ b, b.lookup q.1 = some q.2 := by
  intro b
  induction b with
  | nil =>
    intro _ q hq
    simp at hq
  | cons e rest ih =>
    intro hnd q hq
    obtain ⟨e1, e2⟩ := e
    simp only [List.map_cons, List.nodup_cons] at hnd
    rcases List.mem_cons.mp hq with heq | hq'
    · subst heq
      simp [List.lookup_cons]
    · have hne : (q.1 == e1) = false := by
        rw [beq_eq_false_iff_ne]
        intro hqe
        exact hnd.1 (hqe ▸ List.mem_map_of_mem Prod.fst hq')
      rw [List.lookup_cons, hne]
      exact ih hnd.2 q hq'

/-- A key missing from `a` is also missing from `a` overridden by `b`. -/
theorem lookup_map_override_none (b a : ParamMap) (k : String)
    (h : a.lookup k = none) : (a.map (overrideBy b)).lookup k = none := by
  rw [List.lookup_eq_none_iff] at h ⊢
  intro p hp
  obtain ⟨q, hq, rfl⟩ := List.mem_map.mp hp
  have hk := h q hq
  unfold overrideBy
  cases hbv : b.lookup q.1 with
  | none => simpa [hbv] using hk
  | some v => simpa [hbv] using hk

/-- A key present in `a` stays present in `a` overridden by `b`. -/
theorem lookup_map_override_isSome (b a : ParamMap) (k : String)
    (h : (a.lookup k).isSome) : ((a.map (overrideBy b)).lookup k).isSome := by
  rw [List.lookup_isSome_iff] at h ⊢
  obtain ⟨p, hp, hbeq⟩ := h
  refine ⟨overrideBy b p, List.mem_map_of_mem _ hp, ?_⟩
  unfold overrideBy
  cases hbv : b.lookup p.1 with
  | none => simpa [hbv] using hbeq
  | some v => simpa [hbv] using hbeq

/-- The lookup of an entry's own key succeeds. -/
theorem mem_lookup_isSome (l : ParamMap) (p : String × Int) (hp : p ∈ l) :
    (l.lookup p.1).isSome := by
  rw [List.lookup_isSome_iff]
  exact ⟨p, hp, by simp⟩

/-- The spread-merge with `b` (duplicate-free keys) is idempotent:
merging `b` over an object that already carries `b`'s entries changes
nothing. -/
theorem objAssign_idem (a b : ParamMap) (hnd : (b.map Prod.fst).Nodup) :
    objAssign (objAssign a b) b = objAssign a b := by
  have hFid : ∀ p ∈ objAssign a b, overrideBy b p = p := by
    intro p hp
    unfold objAssign at hp
    rcases List.mem_append.mp hp with hp1 | hp2
    · obtain ⟨q, hq, rfl⟩ := List.mem_map.mp hp1
      unfold overrideBy
      cases hbv : b.lookup q.1 with
      | none => simp [hbv]
      | some v => simp [hbv]
    · have hpb : p ∈ b := List.mem_of_mem_filter hp2
      have := lookup_self_of_nodupkeys b hnd p hpb
      unfold overrideBy
      rw [this]
  have hfilter : b.filter (fun p => ((objAssign a b).lookup p.1).isNone) = [] := by
    rw [List.filter_eq_nil_iff]
    intro p hp
    have hsome : ((objAssign a b).lookup p.1).isSome := by
      unfold objAssign
      rw [List.lookup_append]
      cases hav : (a.lookup p.1).isSome with
      | true =>
        have := lookup_map_override_isSome b a p.1 hav
        cases hx : (a.map (overrideBy b)).lookup p.1 with
        | none => rw [hx] at this; exact absurd this (by simp)
        | some v => rfl
      | false =>
        have hnone : a.lookup p.1 = none := by
          cases hv : a.lookup p.1 with
          | none => rfl
          | some v => rw [hv] at hav; exact absurd hav (by simp)
        rw [lookup_map_override_none b a p.1 hnone]
        have hmemf : p ∈ b.filter (fun q => (a.lookup q.1).isNone) := by
          rw [List.mem_filter]
          exact ⟨hp, by simp [hnone]⟩
        have := mem_lookup_isSome _ p hmemf
        simpa using this
    intro hcontra
    rw [Option.isNone_iff_eq_none] at hcontra
    rw [hcontra] at hsome
    exact absurd hsome (by simp)
  conv_lhs => rw [objAssign]
  rw [List.map_congr_left hFid, List.map_id', hfilter, List.append_nil]

/-- The "t" counter a nested router reads from a route's params. -/
def paramT (r : Route) : Int := ((r.params.getD []).lookup "t").getD 0

/-- A deterministic nested router that on every action rebuilds its state
with the "t" counter bumped — a child router for which repeating an action
is observable. -/
def crInc : ChildRouter :=
  ⟨fun _ ro =>
    match ro with
    | some r => ChildRes.new ⟨50, r.key, r.routeName, some [("t", paramT r + 1)]⟩
    | none => ChildRes.nul,
   fun _ => ("", none), none⟩

/-- Two tabs; the active "A" owns the counter-bumping router. -/
def cfgC8 : TabConfig :=
  { order := ["A", "B"], initialRouteName := "A", backBehavior := "initialRoute",
    pathOf := fun _ => none,
    routerOf := fun nm => if nm = "A" then some crInc else none }

/-- A SetParams action addressed to the key "B". -/
def aSetB : NavAction :=
  NavAction.mk NavigationActions.SET_PARAMS none (some "B") (some [("y", 2)])

/-- Result of the first application in the C8 counterexample. -/
def sC8one : NavState :=
  ⟨11, 10, 0, [⟨50, "A", "A", some [("t", 1)]⟩, ⟨3, "B", "B", none⟩]⟩

/-- Result of the second application in the C8 counterexample. -/
def sC8two : NavState :=
  ⟨13, 12, 0, [⟨50, "A", "A", some [("t", 2)]⟩, ⟨3, "B", "B", none⟩]⟩

/-- C8 counterexample: the SetParams key "B" matches a route of the state in
both applications, yet the active tab's nested router intercepts the action
before the SetParams branch, so the second application differs from the
first by value (the claim's merge/replace/index description also fails: the
active slot was replaced and "B"'s params were never merged). -/
theorem C8_counterexample :
    (sAB.routes.findIdx? (fun r => r.key == "B")).isSome = true ∧
    tabGetStateForAction cfgC8 aSetB (some sAB) 10 =
      RRes.ok (some sC8one) (some sAB) 12 ∧
    (sC8one.routes.findIdx? (fun r => r.key == "B")).isSome = true ∧
    tabGetStateForAction cfgC8 aSetB (some sC8one) 12 =
      RRes.ok (some sC8two) (some sC8one) 14 ∧
    sC8two.val ≠ sC8one.val := by decide

/-- C8 amended: provided the action reaches the SetParams branch — the
active route's nested router, when there is one, treats the SetParams action
as unchanged — each application merges `action.params` over the params of
the first route whose key matches, replaces only that slot, leaves the index
unchanged, and the second application yields a state identical by value to
the first result (only object identities differ). -/
theorem C8_set_params_idempotent (cfg : TabConfig) (s : NavState) (n m : Nat)
    (a : NavAction) (k : String) (ap : ParamMap) (j : Nat)
    (hA : a = NavAction.mk NavigationActions.SET_PARAMS none (some k) (some ap))
    (hnd : (ap.map Prod.fst).Nodup)
    (hlen : s.index < s.routes.length)
    (hact : ∀ cr, activeRouterOf cfg s = some cr → ∀ ro, cr.run a ro = ChildRes.same)
    (hj : s.routes.findIdx? (fun r => r.key == k) = some j) :
    ∃ (r0 : Route) (s1 s2 : NavState),
      s.routes[j]? = some r0 ∧
      tabGetStateForAction cfg a (some s) n = RRes.ok (some s1) (some s) (n + 3) ∧
      s1.index = s.index ∧
      s1.routes = s.routes.set j ⟨n, r0.key, r0.routeName,
        some (objAssign (r0.params.getD []) ap)⟩ ∧
      tabGetStateForAction cfg a (some s1) m = RRes.ok (some s2) (some s1) (m + 3) ∧
      s2.val = s1.val := by
  subst hA
  set a := NavAction.mk NavigationActions.SET_PARAMS none (some k) (some ap) with ha
  obtain ⟨hjlt, hpj, hbefore⟩ := List.findIdx?_eq_some_iff_getElem.mp hj
  set r0 := s.routes.get ⟨j, hjlt⟩ with hr0def
  have hr0 : s.routes[j]? = some r0 := List.getElem?_eq_getElem hjlt
  have hkey0 : r0.key = k := beq_iff_eq.mp hpj
  set newR : Route := ⟨n, r0.key, r0.routeName,
    some (objAssign (r0.params.getD []) ap)⟩ with hnewR
  set s1 : NavState :=
    { sid := n + 2, aid := n + 1, index := s.index,
      routes := s.routes.set j newR } with hs1
  set newR2 : Route := ⟨m, newR.key, newR.routeName,
    some (objAssign (newR.params.getD []) ap)⟩ with hnewR2
  set s2 : NavState :=
    { sid := m + 2, aid := m + 1, index := s1.index,
      routes := s1.routes.set j newR2 } with hs2
  have htyne1 : a.type ≠ NavigationActions.INIT := by
    rw [ha]
    exact (show NavigationActions.SET_PARAMS ≠ NavigationActions.INIT by decide)
  have htyne2 : a.type ≠ NavigationActions.PASS := by
    rw [ha]
    exact (show NavigationActions.SET_PARAMS ≠ NavigationActions.PASS by decide)
  have htyne3 : a.type ≠ NavigationActions.NAVIGATE := by
    rw [ha]
    exact (show NavigationActions.SET_PARAMS ≠ NavigationActions.NAVIGATE by decide)
  have htyne4 : a.type ≠ NavigationActions.BACK := by
    rw [ha]
    exact (show NavigationActions.SET_PARAMS ≠ NavigationActions.BACK by decide)
  have hpay : a.nested.getD a = a := by rw [ha]; rfl
  have hspgen : ∀ (st : NavState) (nn jj : Nat) (rr : Route),
      st.routes.findIdx? (fun r => r.key == k) = some jj →
      st.routes.getD jj dummyRoute = rr →
      setParamsStep a st nn = NavOut.ret
        { sid := nn + 2, aid := nn + 1, index := st.index,
          routes := st.routes.set jj ⟨nn, rr.key, rr.routeName,
            some (objAssign (rr.params.getD []) ap)⟩ } (nn + 3) := by
    intro st nn jj rr hfind hgd
    unfold setParamsStep
    rw [if_pos (show a.type = NavigationActions.SET_PARAMS by rw [ha]; rfl)]
    simp only [ha, NavAction.key, NavAction.params, hfind, hgd, Option.getD_some]
  have hfirstSp : setParamsStep a s n = NavOut.ret s1 (n + 3) := by
    have hgd : s.routes.getD j dummyRoute = r0 := by
      rw [List.getD_eq_getElem?_getD, hr0]
      rfl
    rw [hspgen s n j r0 hj hgd]
  have hActS : activeStep cfg a (some s) s n = ActOut.fall := by
    cases hro : activeRouterOf cfg s with
    | none => exact activeStep_of_no_router _ _ _ _ _ hro
    | some cr =>
      refine activeStep_of_same cfg a (some s) s n cr (s.routes.get ⟨s.index, hlen⟩) hro
        (List.getElem?_eq_getElem hlen) ?_
      rw [hpay]
      exact hact cr hro _
  have hlen1 : s1.index < s1.routes.length := by
    rw [hs1]
    simpa using hlen
  have hlen1r : j < s1.routes.length := by
    rw [hs1]
    simpa using hjlt
  have hact1 : ∀ cr, activeRouterOf cfg s1 = some cr →
      ∀ ro, cr.run a ro = ChildRes.same := by
    intro cr hcr
    apply hact
    rw [← hcr]
    unfold activeRouterOf
    rfl
  have hActS1 : activeStep cfg a (some s1) s1 m = ActOut.fall := by
    cases hro : activeRouterOf cfg s1 with
    | none => exact activeStep_of_no_router _ _ _ _ _ hro
    | some cr =>
      refine activeStep_of_same cfg a (some s1) s1 m cr (s1.routes.get ⟨s1.index, hlen1⟩) hro
        (List.getElem?_eq_getElem hlen1) ?_
      rw [hpay]
      exact hact1 cr hro _
  have hr1 : s1.routes[j]? = some newR := by
    rw [hs1]
    simpa using List.getElem?_set_self (a := newR) hjlt
  have hj1 : s1.routes.findIdx? (fun r => r.key == k) = some j := by
    rw [List.findIdx?_eq_some_iff_getElem]
    obtain ⟨hh, heq⟩ := List.getElem?_eq_some_iff.mp hr1
    refine ⟨hlen1r, ?_, ?_⟩
    · rw [heq, hnewR]
      simp [hkey0]
    · intro j' hj'
      have hne : j ≠ j' := (Nat.ne_of_lt hj').symm
      have hjlt' : j' < s.routes.length := Nat.lt_trans hj' hjlt
      have hgq : s1.routes[j']? = some (s.routes.get ⟨j', hjlt'⟩) := by
        rw [hs1]
        simp only []
        rw [List.getElem?_set_ne hne]
        exact List.getElem?_eq_getElem hjlt'
      obtain ⟨hh2, heq2⟩ := List.getElem?_eq_some_iff.mp hgq
      rw [heq2]
      exact hbefore j' hj'
  have hsecondSp : setParamsStep a s1 m = NavOut.ret s2 (m + 3) := by
    have hgd1 : s1.routes.getD j dummyRoute = newR := by
      rw [List.getD_eq_getElem?_getD, hr1]
      rfl
    rw [hspgen s1 m j newR hj1 hgd1]
  have hmain : ∀ (st : NavState) (nn : Nat),
      initStage cfg a (some st) nn = (st, nn) →
      passStep cfg a st nn = PassOut.fall →
      activeStep cfg a (some st) st nn = ActOut.fall →
      ∀ (sres : NavState),
      setParamsStep a st nn = NavOut.ret sres (nn + 3) →
      tabGetStateForAction cfg a (some st) nn = RRes.ok (some sres) (some st) (nn + 3) := by
    intro st nn h1 h2 h3 sres h4
    unfold tabGetStateForAction
    simp only [NavigationActions.mapDeprecatedActionAndWarn, h1, Option.map_some']
    simp only [h2, h3, navTargetIndex_of_type_ne cfg a htyne3, h4,
      backTargetIndex_of_type_ne cfg a st htyne4, Option.getD_none]
  refine ⟨r0, s1, s2, hr0, ?_, by rw [hs1], by rw [hs1], ?_, ?_⟩
  · exact hmain s n (initStage_of_type_ne _ _ _ _ htyne1)
      (passStep_of_type_ne _ _ _ _ htyne2) hActS s1 hfirstSp
  · exact hmain s1 m (initStage_of_type_ne _ _ _ _ htyne1)
      (passStep_of_type_ne _ _ _ _ htyne2) hActS1 s2 hsecondSp
  · have hval : newR2.val = newR.val := by
      have hid := objAssign_idem (r0.params.getD []) ap hnd
      rw [hnewR2, hnewR]
      simp [Route.val, hid]
    have hmaps : (s1.routes.set j newR2).map Route.val = s1.routes.map Route.val := by
      apply List.ext_getElem?
      intro i
      by_cases hij : i = j
      · subst hij
        rw [List.getElem?_map, List.getElem?_map,
          List.getElem?_set_self hlen1r, hr1]
        simp [hval]
      · rw [List.getElem?_map, List.getElem?_map,
          List.getElem?_set_ne (fun hc => hij hc.symm)]
    show NavState.val s2 = NavState.val s1
    rw [hs2]
    unfold NavState.val
    simp only [hmaps]

/-- A SetParams action used for the C8 witness. -/
def aSetB2 : NavAction :=
  NavAction.mk NavigationActions.SET_PARAMS none (some "B") (some [("y", 2)])

theorem C8_set_params_idempotent_witness :
    ∃ (r0 : Route) (s1 s2 : NavState),
      sAB.routes[1]? = some r0 ∧
      tabGetStateForAction cfgA aSetB2 (some sAB) 10 =
        RRes.ok (some s1) (some sAB) (10 + 3) ∧
      s1.index = sAB.index ∧
      s1.routes = sAB.routes.set 1 ⟨10, r0.key, r0.routeName,
        some (objAssign (r0.params.getD []) [("y", 2)])⟩ ∧
      tabGetStateForAction cfgA aSetB2 (some s1) 20 =
        RRes.ok (some s2) (some s1) (20 + 3) ∧
      s2.val = s1.val := by
  refine C8_set_params_idempotent cfgA sAB 10 20 aSetB2 "B" [("y", 2)] 1 rfl (by decide)
    (by decide) ?_ (by decide)
  intro cr hcr
  have hz : activeRouterOf cfgA sAB = none := rfl
  rw [hz] at hcr
  exact Option.noConfusion hcr

/-- The nested router of tab "B" in the round-trip counterexample: child
path "x", and a path resolution that succeeds on every input. -/
def crPathB : ChildRouter :=
  ⟨fun _ _ => ChildRes.same, fun _ => ("x", none),
   some (fun _ _ => some (NavAction.mk "Child/GO" none none none))⟩

/-- C9 config: "A" (declared path "a", no router) precedes "B" (declared
path "b", nested router) in declaration order. -/
def cfgC9 : TabConfig :=
  { order := ["A", "B"], initialRouteName := "A", backBehavior := "initialRoute",
    pathOf := fun nm => if nm = "A" then some "a" else if nm = "B" then some "b" else none,
    routerOf := fun nm => if nm = "B" then some crPathB else none }

/-- State with "B" active for the round-trip counterexample. -/
def sC9 : NavState := ⟨0, 1, 1, [⟨2, "A", "A", none⟩, ⟨3, "B", "B", none⟩]⟩

/-- C9 counterexample: the active route "B" owns a nested router, has the
declared path "b", and the serialized path is "b/x" — yet resolving that
path yields a Navigate to "A", not "B": path-to-action resolution never
consults the declared paths (the computed pathMatch flag is dead), and the
first route in declaration order with no router matches ANY path when no
params are supplied. -/
theorem C9_counterexample :
    (cfgC9.routerOf "B").isSome = true ∧
    tabGetPathAndParamsForState cfgC9 sC9 = ("b/x", none) ∧
    tabGetActionForPathAndParams cfgC9 "b/x" none =
      some (NavAction.mk NavigationActions.NAVIGATE (some "A") none none) ∧
    (sC9.routes.getD sC9.index dummyRoute).routeName = "B" ∧
    ("A" : String) ≠ "B" := by
  refine ⟨by decide, by decide, by decide, by decide, by decide⟩

/-- C9 amended: declared paths play no role in path-to-action resolution.
The round trip yields a Navigate whose routeName is the active route's name
when the active route is FIRST in declaration order, owns a nested router
exposing the resolution method, and the child's resolution of the full
serialized path succeeds; otherwise an earlier route — any router-less route
when no params were supplied (which is also the only situation in which a
router-less route rejects), or one whose child resolution succeeds — wins
instead. -/
theorem C9_roundtrip_when_active_first (cfg : TabConfig) (s : NavState) (nm : String)
    (rest : List String) (cr : ChildRouter)
    (f : String → Option ParamMap → Option NavAction) (inner : NavAction) (art : Route)
    (horder : cfg.order = nm :: rest)
    (hidx : s.index = 0)
    (hart : s.routes[s.index]? = some art)
    (hname : art.routeName = nm)
    (hr : cfg.routerOf nm = some cr)
    (hf : cr.gafpap = some f)
    (hcall : f (tabGetPathAndParamsForState cfg s).1 none = some inner) :
    ∃ actn, tabGetActionForPathAndParams cfg (tabGetPathAndParamsForState cfg s).1 none =
        some actn ∧ actn.routeName = some art.routeName := by
  unfold tabGetActionForPathAndParams
  rw [horder]
  unfold gafpapGo
  simp only [hr, hf, hcall]
  exact ⟨_, rfl, by simp [hname, NavAction.routeName]⟩

/-- Single-tab config whose route "B" owns the resolving router. -/
def cfgC9W : TabConfig :=
  { order := ["B"], initialRouteName := "B", backBehavior := "initialRoute",
    pathOf := fun _ => some "b", routerOf := fun _ => some crPathB }

/-- Single-route state for the round-trip witness. -/
def sC9W : NavState := ⟨0, 1, 0, [⟨2, "B", "B", none⟩]⟩

theorem C9_roundtrip_when_active_first_witness :
    ∃ actn, tabGetActionForPathAndParams cfgC9W
        (tabGetPathAndParamsForState cfgC9W sC9W).1 none = some actn ∧
      actn.routeName = some (⟨2, "B", "B", none⟩ : Route).routeName :=
  C9_roundtrip_when_active_first cfgC9W sC9W "B" [] crPathB
    (fun _ _ => some (NavAction.mk "Child/GO" none none none))
    (NavAction.mk "Child/GO" none none none) ⟨2, "B", "B", none⟩
    rfl rfl (by decide) rfl rfl rfl rfl
